import Mathlib

/-!
Formal model of the YouTube-downloader Flask service in `src/app.py`.

The external extraction library (`yt_dlp`) is opaque: its two invocations
(probe mode in `get_video_info`, resolve mode inside `youtube_downloader`)
are modelled as injected `Except String VInfo` results, and each handler
additionally returns the list of extraction calls it performed, so that
"never invoked" properties are expressible.  Python dictionaries returned
by the extractor are modelled as structures with `Option` fields:
`d.get(k)` is the field itself, `d.get(k, v)` is `field.getD v`.
-/

set_option maxRecDepth 4000

/-- Configured API secret (`API_KEY` in `src/app.py`). -/
def API_KEY : String := "AAYUSEXDOWNLOADER"

/-- Maximum video duration in seconds (`MAX_DURATION` in `src/app.py`). -/
def MAX_DURATION : Nat := 3600

/-- One format descriptor from the extractor's `formats` catalog.  Fields are
the dictionary keys read by `src/app.py`; `none` models a missing key. -/
structure Fmt where
  format_id : Option String
  url : Option String
  ext : Option String
  format_note : Option String
  vcodec : Option String
  acodec : Option String
  filesize : Option Nat
  width : Option Nat
  height : Option Nat
  fps : Option Nat
  abr : Option Nat
  asr : Option Nat
deriving DecidableEq

/-- The metadata document returned by one `ydl.extract_info` call, restricted
to the keys `src/app.py` reads. -/
structure VInfo where
  id : Option String
  title : Option String
  uploader : Option String
  description : Option String
  thumbnail : Option String
  upload_date : Option String
  webpage_url : Option String
  url : Option String
  duration : Option Nat
  view_count : Option Nat
  like_count : Option Nat
  categories : Option (List String)
  tags : Option (List String)
  formats : Option (List Fmt)
deriving DecidableEq

/-- Probe-mode wrapper `get_video_info` (src/app.py lines 49-69): on success
checks `info.get('duration', 0)` against `MAX_DURATION`.  The Python
`(None, error)` / `(info, None)` pair is modelled as `Except`. -/
def get_video_info (probe : Except String VInfo) : Except String VInfo :=
  match probe with
  | .error e => .error e
  | .ok info =>
    if info.duration.getD 0 > MAX_DURATION then
      .error ("Video too long (" ++ toString (info.duration.getD 0) ++
        "s). Maximum allowed: " ++ toString MAX_DURATION ++ "s")
    else .ok info

/-- Format-selector hint for video requests (src/app.py lines 140-146):
quality tiers drop the trailing character (`quality[:-1]`), anything else
falls back to `best`. -/
def format_selector (quality : String) : String :=
  if quality == "best" then "best"
  else if quality == "144p" || quality == "240p" || quality == "360p" ||
      quality == "480p" || quality == "720p" || quality == "1080p" then
    "best[height<=" ++ quality.dropRight 1 ++ "]"
  else "best"

/-- The `format` entry of the resolve-mode `ydl_opts` (src/app.py
lines 129-152): `bestaudio/best` for mp3, otherwise `format_selector`. -/
def ydl_format_hint (format_type quality : String) : String :=
  if format_type == "mp3" then "bestaudio/best" else format_selector quality

/-- Python truthiness of `fmt.get('url')`: present and non-empty. -/
def hasUrl (f : Fmt) : Bool := !(f.url.getD "" == "")

/-- Kind filter (src/app.py lines 162-170): audio-only descriptors for mp3,
video-containing descriptors otherwise.  A missing codec key is Python
`None`, which compares unequal to the string `'none'`. -/
def kindFilter (format_type : String) (f : Fmt) : Bool :=
  if format_type == "mp3" then
    !(f.acodec == some "none") && f.vcodec == some "none"
  else
    !(f.vcodec == some "none")

/-- Sort key (src/app.py lines 172-176): `x.get('height', 0)` for video
requests, `x.get('abr', 0)` for mp3 requests. -/
def sortKey (format_type : String) (f : Fmt) : Nat :=
  if !(format_type == "mp3") then f.height.getD 0 else f.abr.getD 0

/-- Insert `x` after every element whose key is strictly larger, modelling
one step of a stable descending sort. -/
def insertDesc {α : Type} (k : α → Nat) (x : α) : List α → List α
  | [] => [x]
  | y :: ys => if k x < k y then y :: insertDesc k x ys else x :: y :: ys

/-- Stable descending insertion sort.  Python's `list.sort(key=…,
reverse=True)` is specified to be a stable descending sort by key, and the
stable descending order is unique, so this models it exactly. -/
def sortDesc {α : Type} (k : α → Nat) : List α → List α
  | [] => []
  | x :: xs => insertDesc k x (sortDesc k xs)

theorem insertDesc_perm {α : Type} (k : α → Nat) (x : α) (l : List α) :
    (insertDesc k x l).Perm (x :: l) := by
  induction l with
  | nil => exact List.Perm.refl _
  | cons y ys ih =>
    by_cases h : k x < k y
    · simp only [insertDesc, if_pos h]
      exact (ih.cons y).trans (List.Perm.swap x y ys)
    · simp only [insertDesc, if_neg h]
      exact List.Perm.refl _

theorem sortDesc_perm {α : Type} (k : α → Nat) (l : List α) :
    (sortDesc k l).Perm l := by
  induction l with
  | nil => exact List.Perm.refl _
  | cons x xs ih => exact (insertDesc_perm k x (sortDesc k xs)).trans (ih.cons x)

theorem insertDesc_sorted {α : Type} (k : α → Nat) (x : α) (l : List α)
    (h : l.Pairwise (fun a b => k b ≤ k a)) :
    (insertDesc k x l).Pairwise (fun a b => k b ≤ k a) := by
  induction l with
  | nil => simp [insertDesc]
  | cons y ys ih =>
    rw [List.pairwise_cons] at h
    obtain ⟨hy, hys⟩ := h
    by_cases hxy : k x < k y
    · simp only [insertDesc, if_pos hxy]
      rw [List.pairwise_cons]
      refine ⟨?_, ih hys⟩
      intro b hb
      rcases List.mem_cons.mp ((insertDesc_perm k x ys).mem_iff.mp hb) with rfl | hb2
      · exact Nat.le_of_lt hxy
      · exact hy b hb2
    · simp only [insertDesc, if_neg hxy]
      rw [List.pairwise_cons]
      refine ⟨?_, List.pairwise_cons.mpr ⟨hy, hys⟩⟩
      intro b hb
      rcases List.mem_cons.mp hb with rfl | hb2
      · exact Nat.le_of_not_lt hxy
      · exact Nat.le_trans (hy b hb2) (Nat.le_of_not_lt hxy)

theorem sortDesc_sorted {α : Type} (k : α → Nat) (l : List α) :
    (sortDesc k l).Pairwise (fun a b => k b ≤ k a) := by
  induction l with
  | nil => simp [sortDesc]
  | cons x xs ih => exact insertDesc_sorted k x _ ih

theorem insertDesc_filter_key {α : Type} (k : α → Nat) (x : α) (l : List α)
    (v : Nat) :
    (insertDesc k x l).filter (fun a => k a == v) =
      if k x == v then x :: l.filter (fun a => k a == v)
      else l.filter (fun a => k a == v) := by
  induction l with
  | nil =>
    by_cases hxv : k x = v <;> simp [insertDesc, hxv]
  | cons y ys ih =>
    by_cases hxy : k x < k y
    · simp only [insertDesc, if_pos hxy, List.filter_cons, ih]
      by_cases hyv : k y = v
      · have hxv : ¬ k x = v := by omega
        simp [hyv, hxv]
      · by_cases hxv : k x = v <;> simp [hyv, hxv]
    · simp only [insertDesc, if_neg hxy, List.filter_cons]

theorem sortDesc_stable {α : Type} (k : α → Nat) (l : List α) (v : Nat) :
    (sortDesc k l).filter (fun a => k a == v) =
      l.filter (fun a => k a == v) := by
  induction l with
  | nil => rfl
  | cons x xs ih =>
    simp only [sortDesc, insertDesc_filter_key, ih, List.filter_cons]

/-- Characters that terminate the regex capture group `[^&\n?#]+` in
`extract_video_id` (src/app.py lines 36-47). -/
def isStop (c : Char) : Bool := c == '&' || c == '\n' || c == '?' || c == '#'

/-- If `pat` is a prefix of `cs`, return the remaining characters. -/
def dropLit : List Char → List Char → Option (List Char)
  | [], cs => some cs
  | _ :: _, [] => none
  | p :: ps, c :: cs => if p == c then dropLit ps cs else none

/-- Try the pattern alternatives in order at the current position: a literal
alternative followed by a non-empty capture of non-stop characters. -/
def matchAltAt (alts : List (List Char)) (cs : List Char) : Option (List Char) :=
  match alts with
  | [] => none
  | a :: rest =>
    match dropLit a cs with
    | some tail =>
      let cap := tail.takeWhile (fun c => !isStop c)
      if cap.isEmpty then matchAltAt rest cs else some cap
    | none => matchAltAt rest cs

/-- Leftmost search: try every start position from the left, as `re.search`
does. -/
def searchAlts (alts : List (List Char)) : List Char → Option (List Char)
  | [] => none
  | c :: cs =>
    match matchAltAt alts (c :: cs) with
    | some cap => some cap
    | none => searchAlts alts cs

/-- The URL validator `extract_video_id` (src/app.py lines 36-47): the first
pattern is an alternation of the watch-page, short-link and embed shapes, the
second is the legacy `/v/` shape; each captures `[^&\n?#]+`. -/
def extract_video_id (url : String) : Option String :=
  match searchAlts
      ["youtube.com/watch?v=".data, "youtu.be/".data, "youtube.com/embed/".data]
      url.data with
  | some cap => some ⟨cap⟩
  | none =>
    match searchAlts ["youtube.com/v/".data] url.data with
    | some cap => some ⟨cap⟩
    | none => none

/-- Hex digit value, for percent-decoding. -/
def hexVal (c : Char) : Option Nat :=
  if '0' ≤ c ∧ c ≤ '9' then some (c.toNat - '0'.toNat)
  else if 'a' ≤ c ∧ c ≤ 'f' then some (c.toNat - 'a'.toNat + 10)
  else if 'A' ≤ c ∧ c ≤ 'F' then some (c.toNat - 'A'.toNat + 10)
  else none

/-- Percent-decoding, modelling `urllib.parse.unquote` on single-byte
escapes (the library call is external to the repository; multi-byte UTF-8
escapes do not occur in any input considered here).  Invalid escapes pass
through unchanged. -/
def unquoteChars : List Char → List Char
  | '%' :: a :: b :: rest =>
    match hexVal a, hexVal b with
    | some x, some y => Char.ofNat (16 * x + y) :: unquoteChars rest
    | _, _ => '%' :: unquoteChars (a :: b :: rest)
  | c :: rest => c :: unquoteChars rest
  | [] => []

/-- String-level wrapper for `unquoteChars`. -/
def unquote (s : String) : String := ⟨unquoteChars s.data⟩

/-- Kind-specific extra fields of one `link_info` dictionary
(src/app.py lines 189-200). -/
inductive LinkExtra where
  | video (resolution : String) (fps : Option Nat)
      (vcodec acodec : Option String)
  | audio (bitrate sample_rate : Option Nat)
deriving DecidableEq

/-- One entry of `download_links` (src/app.py lines 181-211).  The fallback
single link carries neither `filesize` nor kind-specific fields, hence the
`Option`s. -/
structure LinkInfo where
  format_id : Option String
  url : String
  ext : Option String
  quality : String
  filesize : Option Nat
  extra : Option LinkExtra
deriving DecidableEq

/-- Dimension rendering in the `resolution` string: a missing width or
height becomes the literal `Unknown` (src/app.py line 191). -/
def dimStr : Option Nat → String
  | some n => toString n
  | none => "Unknown"

/-- Build one `link_info` dictionary from a descriptor whose URL value is
`u` (src/app.py lines 181-200). -/
def mkLinkInfo (format_type : String) (f : Fmt) (u : String) : LinkInfo :=
  { format_id := f.format_id
    url := u
    ext := f.ext
    quality := f.format_note.getD "Unknown"
    filesize := f.filesize
    extra :=
      if !(format_type == "mp3") then
        some (.video (dimStr f.width ++ "x" ++ dimStr f.height)
          f.fps f.vcodec f.acodec)
      else
        some (.audio f.abr f.asr) }

/-- The loop over `filtered_formats[:5]` (src/app.py lines 179-202): each
descriptor with a truthy `url` contributes one link, the rest are skipped. -/
def buildLinks (format_type : String) : List Fmt → List LinkInfo
  | [] => []
  | f :: fs =>
    if hasUrl f then mkLinkInfo format_type f (f.url.getD "") :: buildLinks format_type fs
    else buildLinks format_type fs

/-- The kind-filtered catalog after the in-place quality sort
(src/app.py lines 162-176). -/
def rankedFormats (format_type : String) (formats : List Fmt) : List Fmt :=
  sortDesc (sortKey format_type) (formats.filter (kindFilter format_type))

/-- The complete `download_links` computation for a present catalog
(src/app.py lines 162-202): kind filter, stable descending sort, truncation
to 5, then the URL-guarded link loop. -/
def downloadLinks (format_type : String) (formats : List Fmt) : List LinkInfo :=
  buildLinks format_type ((rankedFormats format_type formats).take 5)

/-- The single-URL fallback link (src/app.py lines 204-211). -/
def singleLink (format_type quality : String) (info : VInfo) : LinkInfo :=
  { format_id := some "single"
    url := info.url.getD ""
    ext := some format_type
    quality := quality
    filesize := none
    extra := none }

/-- The `video_info` block of the download endpoint's success response
(src/app.py lines 215-224). -/
structure DlVideoInfo where
  id : Option String
  title : Option String
  uploader : Option String
  duration : Option Nat
  view_count : Option Nat
  description : String
  thumbnail : Option String
  upload_date : Option String
deriving DecidableEq

/-- Build the trimmed `video_info` block; the description is truncated to
500 characters with a trailing ellipsis when non-empty (src/app.py
line 221). -/
def mkDlVideoInfo (info : VInfo) : DlVideoInfo :=
  { id := info.id
    title := info.title
    uploader := info.uploader
    duration := info.duration
    view_count := info.view_count
    description :=
      if info.description.getD "" == "" then ""
      else (info.description.getD "").take 500 ++ "..."
    thumbnail := info.thumbnail
    upload_date := info.upload_date }

/-- The `video_info` block of the info-only endpoint's success response
(src/app.py lines 270-286); tags are truncated to the first 10. -/
structure InfoVideoInfo where
  id : Option String
  title : Option String
  uploader : Option String
  duration : Option Nat
  view_count : Option Nat
  like_count : Option Nat
  description : String
  thumbnail : Option String
  upload_date : Option String
  categories : List String
  tags : List String
  webpage_url : Option String
deriving DecidableEq

/-- Build the fuller `video_info` block of the info-only endpoint. -/
def mkInfoVideoInfo (info : VInfo) : InfoVideoInfo :=
  { id := info.id
    title := info.title
    uploader := info.uploader
    duration := info.duration
    view_count := info.view_count
    like_count := info.like_count
    description := info.description.getD ""
    thumbnail := info.thumbnail
    upload_date := info.upload_date
    categories := info.categories.getD []
    tags := (info.tags.getD []).take 10
    webpage_url := info.webpage_url }

/-- A JSON response body: an error object with `status: failed`, a download
success body, or an info success body. -/
inductive Body where
  | err (msg : String)
  | dl (vinfo : DlVideoInfo) (download_links : List LinkInfo)
      (requested_format requested_quality : String)
  | info (v : InfoVideoInfo)
deriving DecidableEq

/-- An HTTP response: status code plus JSON body. -/
structure Resp where
  code : Nat
  body : Body
deriving DecidableEq

/-- Which extraction calls a handler performed, in order. -/
inductive Mode where
  | probe
  | resolve
deriving DecidableEq

/-- Python `str.lower()` on the ASCII request parameters used by the
service, modelled character-wise (the library call is external to the
repository). -/
def lowerStr (s : String) : String := ⟨s.data.map Char.toLower⟩

/-- Python truthiness plus equality test of `require_api_key`
(src/app.py line 28): passes iff the key is present, non-empty and equal
to the secret. -/
def apiKeyPasses (apikey : Option String) : Bool :=
  match apikey with
  | none => false
  | some k => !(k == "") && k == API_KEY

/-- The `require_api_key` decorator (src/app.py lines 23-34): on failure it
answers 401 directly, performing no extraction calls and never invoking the
wrapped handler. -/
def require_api_key (apikey : Option String)
    (handler : Unit → Resp × List Mode) : Resp × List Mode :=
  if apiKeyPasses apikey then handler ()
  else (⟨401, Body.err "Invalid or missing API key"⟩, [])

/-- The downloader endpoint body after authentication (src/app.py
lines 95-237).  `probe` and `resolve` are the injected results of the two
`extract_info` calls; an `Except.error` models a raised exception, which for
the resolve call is caught by the function's outer `except` handler and
answered as a 500. -/
def youtube_downloader_core (url_p format_p quality_p : Option String)
    (probe resolve : Except String VInfo) : Resp × List Mode :=
  match url_p with
  | none => (⟨400, Body.err "URL parameter is required"⟩, [])
  | some url0 =>
    match extract_video_id (unquote url0) with
    | none => (⟨400, Body.err "Invalid YouTube URL"⟩, [])
    | some _ =>
      match get_video_info probe with
      | .error e => (⟨400, Body.err e⟩, [Mode.probe])
      | .ok _ =>
        match resolve with
        | .error e =>
          (⟨500, Body.err ("Failed to process video: " ++ e)⟩,
            [Mode.probe, Mode.resolve])
        | .ok info2 =>
          (⟨200, Body.dl (mkDlVideoInfo info2)
              (match info2.formats with
               | some formats =>
                 downloadLinks (lowerStr (format_p.getD "mp4")) formats
               | none =>
                 [singleLink (lowerStr (format_p.getD "mp4"))
                    (lowerStr (quality_p.getD "best")) info2])
              (lowerStr (format_p.getD "mp4"))
              (lowerStr (quality_p.getD "best"))⟩,
            [Mode.probe, Mode.resolve])

/-- The protected downloader route: `require_api_key` around the handler. -/
def youtube_downloader (apikey url_p format_p quality_p : Option String)
    (probe resolve : Except String VInfo) : Resp × List Mode :=
  require_api_key apikey
    (fun _ => youtube_downloader_core url_p format_p quality_p probe resolve)

/-- The info-only endpoint body after authentication (src/app.py
lines 241-295): probe-mode extraction only. -/
def video_info_core (url_p : Option String)
    (probe : Except String VInfo) : Resp × List Mode :=
  match url_p with
  | none => (⟨400, Body.err "URL parameter is required"⟩, [])
  | some url0 =>
    match extract_video_id (unquote url0) with
    | none => (⟨400, Body.err "Invalid YouTube URL"⟩, [])
    | some _ =>
      match get_video_info probe with
      | .error e => (⟨400, Body.err e⟩, [Mode.probe])
      | .ok info => (⟨200, Body.info (mkInfoVideoInfo info)⟩, [Mode.probe])

/-- The protected info route. -/
def video_info (apikey url_p : Option String)
    (probe : Except String VInfo) : Resp × List Mode :=
  require_api_key apikey (fun _ => video_info_core url_p probe)

/-- A video descriptor with the given id, height and optional URL; codecs
mark it as containing video. -/
def vfmt (fid : String) (h : Nat) (u : Option String) : Fmt :=
  { format_id := some fid
    url := u
    ext := some "mp4"
    format_note := none
    vcodec := some "avc1"
    acodec := some "mp4a"
    filesize := none
    width := none
    height := some h
    fps := none
    abr := none
    asr := none }

/-- The spec's synthetic catalog: 8 video descriptors with heights
144, 240, 360, 480, 720, 720, 1080, 0, of which the 1080 one lacks a
direct URL. -/
def exampleCatalog : List Fmt :=
  [vfmt "f144" 144 (some "u144"), vfmt "f240" 240 (some "u240"),
   vfmt "f360" 360 (some "u360"), vfmt "f480" 480 (some "u480"),
   vfmt "f720a" 720 (some "u720a"), vfmt "f720b" 720 (some "u720b"),
   vfmt "f1080" 1080 none, vfmt "f0" 0 (some "u0")]

/-- Modelled from the spec's words (section 4.4 steps 3-5): discard
URL-less descriptors, then sort, then truncate to 5.  For comparison with
`downloadLinks`, which is translated from the source. -/
def selectSpecOrder (format_type : String) (formats : List Fmt) : List Fmt :=
  (sortDesc (sortKey format_type)
    ((formats.filter (kindFilter format_type)).filter hasUrl)).take 5

/-- A metadata document with every key absent. -/
def emptyVInfo : VInfo :=
  { id := none, title := none, uploader := none, description := none
    thumbnail := none, upload_date := none, webpage_url := none, url := none
    duration := none, view_count := none, like_count := none
    categories := none, tags := none, formats := none }

/-- A well-formed watch-page URL used to exercise the handlers. -/
def validUrl : String := "https://youtube.com/watch?v=abc123"

theorem buildLinks_eq (format_type : String) (l : List Fmt) :
    buildLinks format_type l =
      (l.filter hasUrl).map
        (fun f => mkLinkInfo format_type f (f.url.getD "")) := by
  induction l with
  | nil => rfl
  | cons f fs ih =>
    by_cases h : hasUrl f = true <;> simp [buildLinks, List.filter_cons, h, ih]

/-- C1 counterexample: with the spec's 8-descriptor catalog where the 1080
entry lacks a direct URL, the code returns only 4 links, while the claimed
"top 5 among the URL-bearing descriptors" has 5 entries; the returned list
is therefore not that top 5. -/
theorem c1_counterexample :
    (downloadLinks "mp4" exampleCatalog).length = 4 ∧
    (selectSpecOrder "mp4" exampleCatalog).length = 5 ∧
    downloadLinks "mp4" exampleCatalog ≠
      (selectSpecOrder "mp4" exampleCatalog).map
        (fun f => mkLinkInfo "mp4" f (f.url.getD "")) := by
  refine ⟨by decide, by decide, by decide⟩

/-- C1 amended: the selector discards URL-less descriptors only after
sorting and truncation, so the returned list is the URL-bearing entries
among the top 5 of the kind-filtered sorted catalog; on the example catalog
with the URL-less 1080 entry this yields the 4 links of heights
720, 720, 480, 360, the two 720 entries in original relative order. -/
theorem c1_amended_links :
    (∀ (format_type : String) (c : List Fmt),
      downloadLinks format_type c =
        (((rankedFormats format_type c).take 5).filter hasUrl).map
          (fun f => mkLinkInfo format_type f (f.url.getD ""))) ∧
    downloadLinks "mp4" exampleCatalog =
      [mkLinkInfo "mp4" (vfmt "f720a" 720 (some "u720a")) "u720a",
       mkLinkInfo "mp4" (vfmt "f720b" 720 (some "u720b")) "u720b",
       mkLinkInfo "mp4" (vfmt "f480" 480 (some "u480")) "u480",
       mkLinkInfo "mp4" (vfmt "f360" 360 (some "u360")) "u360"] :=
  ⟨fun format_type c => buildLinks_eq format_type _, by decide⟩

/-- C3: the selector's sort is a permutation, descending in the kind's sort
key (height for video requests, average bitrate for mp3 requests, a missing
value counting as zero), and stable: the subsequence of descriptors having
any fixed key value is unchanged. -/
theorem c3_sort_spec :
    ∀ (format_type : String) (l : List Fmt),
      (sortDesc (sortKey format_type) l).Perm l ∧
      (sortDesc (sortKey format_type) l).Pairwise
        (fun a b => sortKey format_type b ≤ sortKey format_type a) ∧
      (∀ v : Nat,
        (sortDesc (sortKey format_type) l).filter
            (fun f => sortKey format_type f == v) =
          l.filter (fun f => sortKey format_type f == v)) ∧
      (format_type = "mp3" → ∀ f : Fmt, sortKey format_type f = f.abr.getD 0) ∧
      (format_type ≠ "mp3" →
        ∀ f : Fmt, sortKey format_type f = f.height.getD 0) := by
  intro format_type l
  refine ⟨sortDesc_perm _ _, sortDesc_sorted _ _, fun v => sortDesc_stable _ _ _,
    ?_, ?_⟩
  · intro h f
    subst h
    rfl
  · intro h f
    have hb : (format_type == "mp3") = false := beq_eq_false_iff_ne.mpr h
    simp [sortKey, hb]

/-- C3 witness: the sort key of a concrete descriptor, for a video request
and for an mp3 request. -/
theorem c3_sort_spec_witness :
    sortKey "mp4" (vfmt "w" 5 none) = (vfmt "w" 5 none).height.getD 0 ∧
    sortKey "mp3" (vfmt "w" 5 none) = (vfmt "w" 5 none).abr.getD 0 :=
  ⟨(c3_sort_spec "mp4" []).2.2.2.2 (by decide) (vfmt "w" 5 none),
   (c3_sort_spec "mp3" []).2.2.2.1 rfl (vfmt "w" 5 none)⟩

/-- C6: the kind filter keeps a descriptor for an mp3 request iff its video
codec is the sentinel `none` and its audio codec is not, and for any
non-mp3 request iff its video codec is not the sentinel `none`. -/
theorem c6_kind_filter :
    ∀ f : Fmt,
      (kindFilter "mp3" f = true ↔
        f.vcodec = some "none" ∧ f.acodec ≠ some "none") ∧
      (∀ format_type : String, format_type ≠ "mp3" →
        (kindFilter format_type f = true ↔ f.vcodec ≠ some "none")) := by
  intro f
  constructor
  · simp [kindFilter, and_comm]
  · intro format_type hft
    have hb : (format_type == "mp3") = false := beq_eq_false_iff_ne.mpr hft
    simp [kindFilter, hb]

/-- C6 witness: the non-mp3 filter on a concrete video descriptor. -/
theorem c6_kind_filter_witness :
    kindFilter "webm" (vfmt "w6" 100 none) = true ↔
      (vfmt "w6" 100 none).vcodec ≠ some "none" :=
  (c6_kind_filter (vfmt "w6" 100 none)).2 "webm" (by decide)

/-- C7: every quality tier label yields the hint obtained by dropping the
trailing unit character, `720p` in particular yields height ceiling 720,
and `best` yields the plain best-format hint with no parsing. -/
theorem c7_quality_hint :
    (∀ q : String,
      q ∈ (["144p", "240p", "360p", "480p", "720p", "1080p"] : List String) →
        format_selector q = "best[height<=" ++ q.dropRight 1 ++ "]") ∧
    format_selector "720p" = "best[height<=720]" ∧
    format_selector "best" = "best" := by
  refine ⟨?_, rfl, rfl⟩
  intro q hq
  simp only [List.mem_cons, List.not_mem_nil, or_false] at hq
  rcases hq with rfl | rfl | rfl | rfl | rfl | rfl <;> rfl

/-- C7 witness: the hint for the concrete tier `480p`. -/
theorem c7_quality_hint_witness :
    format_selector "480p" = "best[height<=" ++ "480p".dropRight 1 ++ "]" :=
  c7_quality_hint.1 "480p" (by decide)

/-- C2 counterexample: with a valid key and URL, a successful probe, and a
resolve-mode extraction error `boom`, the response is a 500 whose message
wraps the error text, not the claimed 400 with the bare text. -/
theorem c2_counterexample :
    (youtube_downloader (some API_KEY) (some validUrl) none none
        (Except.ok emptyVInfo) (Except.error "boom")).1.code = 500 ∧
    (youtube_downloader (some API_KEY) (some validUrl) none none
        (Except.ok emptyVInfo) (Except.error "boom")).1.code ≠ 400 ∧
    (youtube_downloader (some API_KEY) (some validUrl) none none
        (Except.ok emptyVInfo) (Except.error "boom")).1.body =
      Body.err "Failed to process video: boom" := by
  refine ⟨by decide, by decide, by decide⟩

/-- C2 amended: a probe-mode extraction error is caught and answered 400
with the underlying error text, but a resolve-mode extraction error is
caught by the endpoint's outer handler and answered 500 with the text
wrapped in `Failed to process video:`. -/
theorem c2_amended_error_paths :
    ∀ (url : String) (fp qp : Option String) (e : String)
      (resolve : Except String VInfo) (info : VInfo),
      (extract_video_id (unquote url)).isSome = true →
      youtube_downloader_core (some url) fp qp (Except.error e) resolve =
        (⟨400, Body.err e⟩, [Mode.probe]) ∧
      (info.duration.getD 0 ≤ MAX_DURATION →
        youtube_downloader_core (some url) fp qp (Except.ok info)
            (Except.error e) =
          (⟨500, Body.err ("Failed to process video: " ++ e)⟩,
            [Mode.probe, Mode.resolve])) := by
  intro url fp qp e resolve info hx
  obtain ⟨vid, hv⟩ := Option.isSome_iff_exists.mp hx
  constructor
  · simp [youtube_downloader_core, hv, get_video_info]
  · intro hd
    have hgv : get_video_info (Except.ok info) = Except.ok info := by
      simp [get_video_info, Nat.not_lt.mpr hd]
    simp [youtube_downloader_core, hv, hgv]

/-- C2 amended witness: both error paths at a concrete request. -/
theorem c2_amended_witness :
    youtube_downloader_core (some validUrl) none none (Except.error "boom")
        (Except.ok emptyVInfo) =
      (⟨400, Body.err "boom"⟩, [Mode.probe]) ∧
    youtube_downloader_core (some validUrl) none none (Except.ok emptyVInfo)
        (Except.error "boom") =
      (⟨500, Body.err "Failed to process video: boom"⟩,
        [Mode.probe, Mode.resolve]) :=
  ⟨(c2_amended_error_paths validUrl none none "boom" (Except.ok emptyVInfo)
      emptyVInfo (by decide)).1,
   (c2_amended_error_paths validUrl none none "boom" (Except.ok emptyVInfo)
      emptyVInfo (by decide)).2 (by decide)⟩

/-- C4: a probed duration strictly over the ceiling yields a 400 whose
message carries the measured duration and the ceiling, and the probe is the
only extraction call made. -/
theorem c4_duration_limit :
    ∀ (url : String) (fp qp : Option String) (info : VInfo) (d : Nat)
      (resolve : Except String VInfo),
      (extract_video_id (unquote url)).isSome = true →
      info.duration = some d →
      d > MAX_DURATION →
      youtube_downloader_core (some url) fp qp (Except.ok info) resolve =
        (⟨400, Body.err ("Video too long (" ++ toString d ++
            "s). Maximum allowed: " ++ toString MAX_DURATION ++ "s")⟩,
          [Mode.probe]) := by
  intro url fp qp info d resolve hx hdur hgt
  obtain ⟨vid, hv⟩ := Option.isSome_iff_exists.mp hx
  have hgv : get_video_info (Except.ok info) =
      Except.error ("Video too long (" ++ toString d ++
        "s). Maximum allowed: " ++ toString MAX_DURATION ++ "s") := by
    simp [get_video_info, hdur, hgt]
  simp [youtube_downloader_core, hv, hgv]

/-- C4 witness: a 3601-second video against the 3600-second ceiling. -/
theorem c4_duration_limit_witness :
    youtube_downloader_core (some validUrl) none none
        (Except.ok { emptyVInfo with duration := some 3601 })
        (Except.ok emptyVInfo) =
      (⟨400, Body.err "Video too long (3601s). Maximum allowed: 3600s"⟩,
        [Mode.probe]) :=
  c4_duration_limit validUrl none none
    { emptyVInfo with duration := some 3601 } 3601 (Except.ok emptyVInfo)
    (by decide) rfl (by decide)

/-- C5: an absent or mismatched `apikey` yields the 401 error response with
no extraction calls, for every wrapped handler — the handler is never
invoked. -/
theorem c5_auth_gate :
    ∀ (apikey : Option String) (h : Unit → Resp × List Mode),
      (apikey = none ∨ apikey ≠ some API_KEY) →
      require_api_key apikey h =
        (⟨401, Body.err "Invalid or missing API key"⟩, []) := by
  intro apikey h hk
  have hfail : apiKeyPasses apikey = false := by
    rcases hk with rfl | hne
    · rfl
    · cases apikey with
      | none => rfl
      | some k =>
        have hke : ¬ k = API_KEY := fun he => hne (by rw [he])
        simp [apiKeyPasses, hke]
  simp [require_api_key, hfail]

/-- C5 witness: a mismatched key short-circuits a handler that would have
recorded a resolve call. -/
theorem c5_auth_gate_witness :
    require_api_key (some "wrong")
        (fun _ => (⟨200, Body.err "marker"⟩, [Mode.resolve])) =
      (⟨401, Body.err "Invalid or missing API key"⟩, []) :=
  c5_auth_gate (some "wrong") _ (Or.inr (by decide))

/-- Erase the echoed `requested_format` field of a download success body,
leaving everything else intact. -/
def stripRequestedFormat : Resp × List Mode → Resp × List Mode
  | (⟨c, Body.dl vi links _ q⟩, log) => (⟨c, Body.dl vi links "" q⟩, log)
  | r => r

theorem buildLinks_mp4_webm (l : List Fmt) :
    buildLinks "mp4" l = buildLinks "webm" l := by
  induction l with
  | nil => rfl
  | cons f fs ih =>
    by_cases h : hasUrl f = true
    · simp only [buildLinks, if_pos h, ih]
      rfl
    · simp only [buildLinks, if_neg h, ih]

theorem downloadLinks_mp4_webm (c : List Fmt) :
    downloadLinks "mp4" c = downloadLinks "webm" c := by
  have h1 : kindFilter "mp4" = kindFilter "webm" := funext fun f => rfl
  have h2 : sortKey "mp4" = sortKey "webm" := funext fun f => rfl
  show buildLinks "mp4" ((rankedFormats "mp4" c).take 5) =
    buildLinks "webm" ((rankedFormats "webm" c).take 5)
  rw [rankedFormats, rankedFormats, h1, h2, buildLinks_mp4_webm]

/-- C8: whenever the resolve-mode result carries a format catalog, a
`format=mp4` request and a `format=webm` request produce responses that are
identical except for the echoed requested-format field, with the same
format-selector hint and the same kind filter. -/
theorem c8_mp4_webm_equiv :
    ∀ (url_p quality_p : Option String) (probe resolve : Except String VInfo),
      (∀ i : VInfo, resolve = Except.ok i → i.formats.isSome = true) →
      stripRequestedFormat
          (youtube_downloader_core url_p (some "mp4") quality_p probe resolve) =
        stripRequestedFormat
          (youtube_downloader_core url_p (some "webm") quality_p probe resolve) ∧
      (∀ q : String, ydl_format_hint "mp4" q = ydl_format_hint "webm" q) ∧
      (∀ f : Fmt, kindFilter "mp4" f = kindFilter "webm" f) := by
  intro url_p quality_p probe resolve hres
  refine ⟨?_, fun q => rfl, fun f => rfl⟩
  cases url_p with
  | none => rfl
  | some u =>
    cases hx : extract_video_id (unquote u) with
    | none => simp [youtube_downloader_core, hx]
    | some vid =>
      cases hgv : get_video_info probe with
      | error e => simp [youtube_downloader_core, hx, hgv]
      | ok i0 =>
        cases resolve with
        | error e => simp [youtube_downloader_core, hx, hgv]
        | ok info2 =>
          obtain ⟨c, hc⟩ := Option.isSome_iff_exists.mp (hres info2 rfl)
          simp [youtube_downloader_core, hx, hgv, hc, stripRequestedFormat,
            show lowerStr "mp4" = "mp4" from rfl,
            show lowerStr "webm" = "webm" from rfl,
            downloadLinks_mp4_webm]

/-- C8 witness: concrete mp4 and webm requests over the example catalog
produce the same response up to the echoed format field. -/
theorem c8_mp4_webm_equiv_witness :
    stripRequestedFormat
        (youtube_downloader_core (some validUrl) (some "mp4") none
          (Except.ok emptyVInfo)
          (Except.ok { emptyVInfo with formats := some exampleCatalog })) =
      stripRequestedFormat
        (youtube_downloader_core (some validUrl) (some "webm") none
          (Except.ok emptyVInfo)
          (Except.ok { emptyVInfo with formats := some exampleCatalog })) :=
  (c8_mp4_webm_equiv (some validUrl) none (Except.ok emptyVInfo)
    (Except.ok { emptyVInfo with formats := some exampleCatalog })
    (fun i hi => by injection hi with h; rw [← h]; rfl)).1

/-- C9: on a successful probe the info-only endpoint performs only the probe
call and its tag list is exactly the first 10 tags of the source document,
hence at most 10 entries. -/
theorem c9_tags_truncated :
    ∀ (url : String) (info : VInfo),
      (extract_video_id (unquote url)).isSome = true →
      info.duration.getD 0 ≤ MAX_DURATION →
      video_info_core (some url) (Except.ok info) =
        (⟨200, Body.info (mkInfoVideoInfo info)⟩, [Mode.probe]) ∧
      (mkInfoVideoInfo info).tags = (info.tags.getD []).take 10 ∧
      (mkInfoVideoInfo info).tags.length ≤ 10 := by
  intro url info hx hd
  obtain ⟨vid, hv⟩ := Option.isSome_iff_exists.mp hx
  have hgv : get_video_info (Except.ok info) = Except.ok info := by
    simp [get_video_info, Nat.not_lt.mpr hd]
  refine ⟨by simp [video_info_core, hv, hgv], rfl, ?_⟩
  exact List.length_take_le 10 (info.tags.getD [])

/-- A metadata document reporting 12 tags. -/
def manyTagsInfo : VInfo :=
  { emptyVInfo with
    tags := some ["t1","t2","t3","t4","t5","t6","t7","t8","t9","t10","t11","t12"] }

/-- C9 witness: a source document reporting 12 tags is truncated to the
first 10. -/
theorem c9_tags_truncated_witness :
    video_info_core (some validUrl) (Except.ok manyTagsInfo) =
      (⟨200, Body.info (mkInfoVideoInfo manyTagsInfo)⟩, [Mode.probe]) ∧
    (mkInfoVideoInfo manyTagsInfo).tags =
      ["t1", "t2", "t3", "t4", "t5", "t6", "t7", "t8", "t9", "t10"] ∧
    (mkInfoVideoInfo manyTagsInfo).tags.length ≤ 10 := by
  have h := c9_tags_truncated validUrl manyTagsInfo (by decide) (by decide)
  exact ⟨h.1, by decide, h.2.2⟩

/-- C10: a missing duration defaults to zero and a duration exactly equal to
the ceiling passes the strict comparison, so the probe succeeds and the
request proceeds to the resolve call instead of being rejected. -/
theorem c10_duration_default :
    ∀ (info : VInfo) (url : String) (fp qp : Option String)
      (resolve : Except String VInfo),
      (info.duration = none ∨ info.duration = some MAX_DURATION) →
      get_video_info (Except.ok info) = Except.ok info ∧
      ((extract_video_id (unquote url)).isSome = true →
        (youtube_downloader_core (some url) fp qp (Except.ok info)
            resolve).2 = [Mode.probe, Mode.resolve]) := by
  intro info url fp qp resolve hd
  have hle : info.duration.getD 0 ≤ MAX_DURATION := by
    rcases hd with h | h <;> simp [h]
  have hgv : get_video_info (Except.ok info) = Except.ok info := by
    simp [get_video_info, Nat.not_lt.mpr hle]
  refine ⟨hgv, ?_⟩
  intro hx
  obtain ⟨vid, hv⟩ := Option.isSome_iff_exists.mp hx
  cases resolve with
  | error e => simp [youtube_downloader_core, hv, hgv]
  | ok i2 => simp [youtube_downloader_core, hv, hgv]

/-- C10 witness: a document with no duration key passes the probe and the
request reaches the resolve call. -/
theorem c10_duration_default_witness :
    get_video_info (Except.ok emptyVInfo) = Except.ok emptyVInfo ∧
    (youtube_downloader_core (some validUrl) none none (Except.ok emptyVInfo)
        (Except.ok emptyVInfo)).2 = [Mode.probe, Mode.resolve] := by
  have h := c10_duration_default emptyVInfo validUrl none none
    (Except.ok emptyVInfo) (Or.inl rfl)
  exact ⟨h.1, h.2 (by decide)⟩
